import Mathlib

/-!
Shallow embedding of `src/Schema.ts` from the pgutil repository: a
table-schema descriptor that generates SQL statement text (DDL and DML)
from a declarative description of a table's columns and foreign keys.

JavaScript strings are modelled by Lean `String`; the handful of string
operations the source uses (`toLowerCase`, `toUpperCase`, `startsWith`,
`substring`, global single-character `replace`, `Array.join`,
template-literal interpolation of possibly-null values) are modelled by
small explicit functions over `String.data` so that they are executable
and amenable to proof.  JavaScript objects passed as `data` only matter
through `hasOwnProperty`, so they are modelled by their list of present
keys.  TypeScript optional fields become `Option`; JavaScript truthiness
of an optional string (`alias || tableName`, `col.sqlType || 'text'`,
`ev.label ? ... : ...`, `f.operator || '='`) is the explicit test
"present and non-empty".
-/

namespace PgUtil

/-- The single-quote character. -/
def squote : Char := Char.ofNat 39

/-- The double-quote character. -/
def dquote : Char := Char.ofNat 34

/-- The backslash character. -/
def bslash : Char := Char.ofNat 92

/-- Global replacement of one character by a character sequence,
modelling `String.prototype.replace` with a global single-character
regular expression. -/
def replaceChar (c : Char) (r : List Char) (s : String) : String :=
  ⟨s.data.foldr (fun ch acc => if ch = c then r ++ acc else ch :: acc) []⟩

/-- `x.replace(/'/g, "''")` — double every embedded single quote. -/
def sqlQuote (s : String) : String := replaceChar squote [squote, squote] s

/-- `x.replace(/"/g, '\\"')` — backslash-escape every double quote. -/
def escDq (s : String) : String := replaceChar dquote [bslash, dquote] s

/-- `x.toLowerCase()` (ASCII, as used by the source on identifiers). -/
def jsToLower (s : String) : String := ⟨s.data.map Char.toLower⟩

/-- `x.toUpperCase()` (ASCII, as used by the source on operators). -/
def jsToUpper (s : String) : String := ⟨s.data.map Char.toUpper⟩

/-- `Array.prototype.join(sep)`. -/
def jsJoin (sep : String) : List String → String
  | [] => ""
  | x :: xs => xs.foldl (fun acc y => acc ++ sep ++ y) x

/-- A JavaScript primitive value as used for column defaults and filter
values: `string | number | boolean`.  Numbers are taken at integer
values, which is all the repository and its spec exercise. -/
inductive JsValue where
  | str (s : String)
  | num (n : Int)
  | bool (b : Bool)
deriving DecidableEq

/-- Template-literal rendering `${v}` of a primitive value. -/
def JsValue.render : JsValue → String
  | .str s => s
  | .num n => toString n
  | .bool b => if b then "true" else "false"

/-- Template-literal rendering of a possibly-null string
(`${null}` prints `null`). -/
def jsNullable : Option String → String
  | some s => s
  | none => "null"

/-- An enumerated value as in `Column.enumValues`:
`{ value: string | number; label?: string }`. -/
structure EnumValue where
  value : JsValue
  label : Option String
deriving DecidableEq

/-- `String(ev.value)` for an enumerated value. -/
def EnumValue.valueString (ev : EnumValue) : String := ev.value.render

/-- Column definition for a database table (type `Column`). -/
structure Column where
  name : String
  sqlType : Option String
  primaryKey : Bool
  nullable : Bool
  autoIncrement : Bool
  foreignKey : Bool
  defaultValue : Option JsValue
  enumValues : Option (List EnumValue)
deriving DecidableEq

/-- A plain column: only a name and an optional SQL type, all flags at
their TypeScript defaults. -/
def plainColumn (name : String) (sqlType : Option String) : Column :=
  ⟨name, sqlType, false, false, false, false, none, none⟩

/-- A primary-key column with an optional SQL type. -/
def pkColumn (name : String) (sqlType : Option String) : Column :=
  ⟨name, sqlType, true, false, false, false, none, none⟩

/-- Referential action of a foreign-key constraint. -/
inductive FkAction where
  | cascade
  | setNull
  | restrict
  | noAction
deriving DecidableEq

/-- SQL text of a referential action. -/
def FkAction.render : FkAction → String
  | .cascade => "CASCADE"
  | .setNull => "SET NULL"
  | .restrict => "RESTRICT"
  | .noAction => "NO ACTION"

/-- Foreign key constraint definition (type `ForeignKey`). -/
structure ForeignKey where
  localColumn : String
  referencedTable : String
  referencedColumn : String
  onDelete : Option FkAction
  onUpdate : Option FkAction
deriving DecidableEq

/-- The column reference of a filter: either a bare column name
(`column` field) or an alias-qualified reference (`alias` field). -/
inductive ColumnRef where
  | column (name : String)
  | aliased (a : String)
deriving DecidableEq

/-- Filter definition for querying a table (type `Filter`): a column
reference, an optional comparison operator (default `=`), and a value
that may be null (`value = none`). -/
structure Filter where
  ref : ColumnRef
  operator : Option String
  value : Option JsValue
deriving DecidableEq

/-- The `filter?: Filter | Filter[]` argument: absent, a single filter,
or an array of filters (possibly empty — an empty array is truthy in
JavaScript and is not the same as an absent argument). -/
inductive FilterArg where
  | one (f : Filter)
  | many (fs : List Filter)
deriving DecidableEq

/-- The schema descriptor state: column list, constraint list, table
name and alias (class `Schema`; the source field `alias` is renamed
`tableAlias` because `alias` is a Lean keyword). -/
structure Schema where
  columns : List Column
  constraints : List ForeignKey
  tableName : String
  tableAlias : String
deriving DecidableEq

/-- The constructor `new Schema(tableName, alias?, columns?, constraints?)`:
the alias defaults to the table name when absent or empty (JavaScript
`alias || tableName`) and is lowercased. -/
def Schema.new (tableName : String) (aliasArg : Option String)
    (columns : List Column) (constraints : List ForeignKey) : Schema :=
  let a := match aliasArg with
    | some a => if a = "" then tableName else a
    | none => tableName
  ⟨columns, constraints, tableName, jsToLower a⟩

/-- `addColumn` for a single column (returns the updated descriptor). -/
def Schema.addColumn (s : Schema) (column : Column) : Schema :=
  ⟨s.columns ++ [column], s.constraints, s.tableName, s.tableAlias⟩

/-- `addColumn` for an array of columns. -/
def Schema.addColumns (s : Schema) (cols : List Column) : Schema :=
  ⟨s.columns ++ cols, s.constraints, s.tableName, s.tableAlias⟩

/-- `addConstraint` for a single constraint. -/
def Schema.addConstraint (s : Schema) (fk : ForeignKey) : Schema :=
  ⟨s.columns, s.constraints ++ [fk], s.tableName, s.tableAlias⟩

/-- `getAlias()`. -/
def Schema.getAlias (s : Schema) : String := s.tableAlias

/-- `getTableName(useSql = false)`. -/
def Schema.getTableName (s : Schema) (useSql : Bool) : String :=
  if useSql then jsToLower s.tableName else s.tableName

/-- `getColumnAliases(includePrimary)`. -/
def Schema.getColumnAliases (s : Schema) (includePrimary : Bool) : List String :=
  let a := s.getAlias
  (s.columns.filter (fun col => includePrimary || !col.primaryKey)).map
    (fun col => (a ++ "_") ++ col.name)

/-- `getColumnNames(includePrimary)`. -/
def Schema.getColumnNames (s : Schema) (includePrimary : Bool) : List String :=
  let a := s.getAlias
  (s.columns.filter (fun col => includePrimary || !col.primaryKey)).map
    (fun col => (a ++ ".") ++ col.name)

/-- The body of `enumExpression` for a present `enumValues` list: the
parenthesized `CASE` expression over the enumerated values. -/
def Schema.enumCase (s : Schema) (col : Column) (evs : List EnumValue) : String :=
  let a := s.getAlias
  let colRef := (a ++ ".") ++ col.name
  let whenThens := jsJoin " " (evs.map (fun ev =>
    let valLiteral := match ev.value with
      | .num n => toString n
      | v => "'" ++ sqlQuote v.render ++ "'"
    let label := match ev.label with
      | some l => if l = "" then "Value \"" ++ escDq ev.valueString ++ "\"" else sqlQuote l
      | none => "Value \"" ++ escDq ev.valueString ++ "\""
    "WHEN " ++ colRef ++ " = " ++ valLiteral ++ " THEN '" ++ label ++ "'"))
  "(CASE " ++ whenThens ++ " ELSE 'Value \"' || " ++ colRef ++ " || '\"' END)"

/-- `enumExpression(col)`: `null` when the column has no `enumValues`. -/
def Schema.enumExpression (s : Schema) (col : Column) : Option String :=
  match col.enumValues with
  | none => none
  | some evs => some (s.enumCase col evs)

/-- The select-expression `getColumnFields` emits for one column. -/
def Schema.fieldExpr (s : Schema) (useLabels : Bool) (col : Column) : String :=
  let a := s.getAlias
  if useLabels && col.enumValues.isSome then
    jsNullable (s.enumExpression col) ++ " AS \"" ++ (a ++ "_") ++ col.name ++ "_label\""
  else
    (a ++ ".") ++ col.name ++ " AS \"" ++ (a ++ "_") ++ col.name ++ "\""

/-- `getColumnFields(includePrimary, useLabels)`. -/
def Schema.getColumnFields (s : Schema) (includePrimary : Bool) (useLabels : Bool) :
    List String :=
  (s.columns.filter (fun col => includePrimary || !col.primaryKey)).map
    (s.fieldExpr useLabels)

/-- `getPrimaryKey(useAlias)`: the first column marked primary key, or
null when none exists. -/
def Schema.getPrimaryKey (s : Schema) (useAlias : Bool) : Option String :=
  match s.columns.find? (fun col => col.primaryKey) with
  | some col => some ((s.getAlias ++ (if useAlias then "_" else ".")) ++ col.name)
  | none => none

/-- One column definition of `sqlCreateTable` (the body of its `map`). -/
def columnDef (col : Column) : String :=
  let base := col.name ++ " " ++
    (match col.sqlType with
      | some t => if t = "" then "text" else t
      | none => "text")
  let d1 := if col.primaryKey then base ++ " PRIMARY KEY" else base
  let d2 := if col.nullable then d1 ++ " NULL" else d1
  let d3 := if col.autoIncrement then d2 ++ " GENERATED ALWAYS AS IDENTITY" else d2
  match col.defaultValue with
  | none => d3
  | some (.str v) => d3 ++ " DEFAULT '" ++ sqlQuote v ++ "'"
  | some v => d3 ++ " DEFAULT " ++ v.render

/-- `sqlCreateTable()`. -/
def Schema.sqlCreateTable (s : Schema) : String :=
  let table := s.getTableName true
  let columnsSql := jsJoin ", " (s.columns.map columnDef)
  "CREATE TABLE IF NOT EXISTS " ++ table ++ " (" ++ columnsSql ++ ");"

/-- The idempotent `DO $$ ... $$;` block shared by the constraint
generators: checks the catalog for the constraint name before running
the given `ALTER TABLE` line. -/
def doBlock (constraintName : String) (table : String) (alterLine : String) : String :=
  jsJoin "\n" ["DO $$", "BEGIN", "  IF NOT EXISTS (",
    "    SELECT 1 FROM pg_constraint c", "    JOIN pg_class t ON c.conrelid = t.oid",
    "    WHERE lower(c.conname) = lower('" ++ constraintName ++ "') AND t.relname = '" ++
      table ++ "'",
    "  ) THEN", alterLine, "  END IF;", "END", "$$;"]

/-- `sqlCreateEnumConstraints()`: one CHECK-constraint block per column
with `enumValues`, in column order. -/
def Schema.sqlCreateEnumConstraints (s : Schema) : List String :=
  let table := s.getTableName true
  (s.columns.filterMap (fun col =>
    match col.enumValues with
    | none => none
    | some evs =>
      let constraintName := (table ++ "_") ++ col.name ++ "_enum_chk"
      let allowedValues := jsJoin ", " (evs.map (fun ev =>
        match ev.value with
        | .num n => toString n
        | v => "'" ++ sqlQuote v.render ++ "'"))
      some (doBlock constraintName table
        ("    ALTER TABLE " ++ table ++ " ADD CONSTRAINT " ++ constraintName ++
         " CHECK (" ++ col.name ++ " IN (" ++ allowedValues ++ "));"))))

/-- `sqlCreateTableConstraints()`: one FOREIGN-KEY block per declared
constraint, in declaration order. -/
def Schema.sqlCreateTableConstraints (s : Schema) : List String :=
  let table := s.getTableName true
  s.constraints.map (fun fk =>
    let constraintName := (table ++ "_") ++ fk.localColumn ++ "_fk"
    let refTable := jsToLower fk.referencedTable
    let actions :=
      (match fk.onDelete with
        | some a => ["ON DELETE " ++ a.render]
        | none => []) ++
      (match fk.onUpdate with
        | some a => ["ON UPDATE " ++ a.render]
        | none => [])
    let actionSql := if actions.length != 0 then " " ++ jsJoin " " actions else ""
    doBlock constraintName table
      ("    ALTER TABLE " ++ table ++ " ADD CONSTRAINT " ++ constraintName ++
       " FOREIGN KEY (" ++ fk.localColumn ++ ") REFERENCES " ++ refTable ++ "(" ++
       fk.referencedColumn ++ ")" ++ actionSql ++ ";"))

/-- `sqlTableDrop()`. -/
def Schema.sqlTableDrop (s : Schema) : String :=
  "DROP TABLE IF EXISTS " ++ s.getTableName true ++ ";"

/-- `aliasToColumnName(aliasColumn)`: strip the `<alias>_` prefix when
present, otherwise return the input unchanged.  `startsWith` and
`substring` act on the character sequence. -/
def Schema.aliasToColumnName (s : Schema) (aliasColumn : String) : String :=
  let pre := s.getAlias ++ "_"
  if pre.data.isPrefixOf aliasColumn.data then ⟨aliasColumn.data.drop pre.length⟩
  else aliasColumn

/-- The resolved column reference of one filter (`colRef` in
`whereClause`). -/
def Schema.filterColRef (s : Schema) (f : Filter) : String :=
  let a := s.getAlias
  match f.ref with
  | .aliased al => (a ++ ".") ++ s.aliasToColumnName al
  | .column c => (a ++ ".") ++ c

/-- The effective operator of a filter: `f.operator || '='`. -/
def Filter.op (f : Filter) : String :=
  match f.operator with
  | some o => if o = "" then "=" else o
  | none => "="

/-- One rendered condition of `whereClause` (the body of its `map`). -/
def Schema.renderFilter (s : Schema) (f : Filter) : String :=
  let colRef := s.filterColRef f
  let operator := f.op
  match f.value with
  | none =>
    let op := if jsToUpper operator = "IS NOT" then "IS NOT" else "IS"
    colRef ++ " " ++ op ++ " NULL"
  | some v =>
    let literal := match v with
      | .num n => toString n
      | .bool b => if b then "TRUE" else "FALSE"
      | .str x => "'" ++ sqlQuote x ++ "'"
    colRef ++ " " ++ operator ++ " " ++ literal

/-- `whereClause(filter?)`: empty for an absent argument; otherwise the
normalized filter list's conditions joined with AND after WHERE. -/
def Schema.whereClause (s : Schema) : Option FilterArg → String
  | none => ""
  | some fa =>
    let filters := match fa with
      | .one f => [f]
      | .many fs => fs
    " WHERE " ++ jsJoin " AND " (filters.map s.renderFilter)

/-- `sqlSelect(useLabels, filter?)`. -/
def Schema.sqlSelect (s : Schema) (useLabels : Bool) (filter : Option FilterArg) : String :=
  let fields := jsJoin ", " (s.getColumnFields true useLabels)
  let table := s.getTableName true
  let a := s.getAlias
  "SELECT " ++ fields ++ " FROM " ++ table ++ " AS " ++ a ++ s.whereClause filter

/-- `sqlInsert(data)`: the for-loop accumulating column references and
placeholders for the columns whose alias-key is a present key of
`data`; `data` is modelled by its list of present keys. -/
def Schema.sqlInsert (s : Schema) (data : List String) : String :=
  let table := s.getTableName true
  let a := s.getAlias
  let acc := s.columns.foldl
    (fun (acc : List String × List String) col =>
      let aliasKey := (a ++ "_") ++ col.name
      if data.contains aliasKey then
        (acc.1 ++ [(a ++ ".") ++ col.name], acc.2 ++ ["$" ++ aliasKey])
      else acc)
    ([], [])
  if acc.1.length = 0 then ""
  else
    "INSERT INTO " ++ table ++ " AS " ++ a ++ " (" ++ jsJoin ", " acc.1 ++
      ") VALUES (" ++ jsJoin ", " acc.2 ++ ")"

/-- `sqlUpdate(data)`: SET assignments for the non-primary-key columns
whose bare name is a present key of `data`, then the WHERE clause built
from `getPrimaryKey` (which interpolates as `null` when absent). -/
def Schema.sqlUpdate (s : Schema) (data : List String) : String :=
  let table := s.getTableName true
  let a := s.getAlias
  let setClauses := s.columns.foldl
    (fun (acc : List String) col =>
      if data.contains col.name && !col.primaryKey then
        acc ++ [(a ++ ".") ++ col.name ++ " = $" ++ (a ++ "_") ++ col.name]
      else acc)
    []
  let pkField := jsNullable (s.getPrimaryKey false)
  let pkPlaceholder := "$" ++ jsNullable (s.getPrimaryKey true)
  "UPDATE " ++ table ++ " AS " ++ a ++ " SET " ++ jsJoin ", " setClauses ++
    " WHERE " ++ pkField ++ " = " ++ pkPlaceholder

/-- `sqlDelete(filter?)`. -/
def Schema.sqlDelete (s : Schema) (filter : Option FilterArg) : String :=
  let table := s.getTableName true
  let a := s.getAlias
  "DELETE FROM " ++ table ++ " AS " ++ a ++ s.whereClause filter



/-- State-passing form of `getAlias`: the method only reads the
descriptor, whose state is returned unchanged. -/
def Schema.getAliasSt (s : Schema) : String × Schema := (s.getAlias, s)

/-- State-passing form of `getTableName`. -/
def Schema.getTableNameSt (s : Schema) (useSql : Bool) : String × Schema :=
  (s.getTableName useSql, s)

/-- State-passing form of `getColumnAliases`. -/
def Schema.getColumnAliasesSt (s : Schema) (includePrimary : Bool) : List String × Schema :=
  (s.getColumnAliases includePrimary, s)

/-- State-passing form of `getColumnNames`. -/
def Schema.getColumnNamesSt (s : Schema) (includePrimary : Bool) : List String × Schema :=
  (s.getColumnNames includePrimary, s)

/-- State-passing form of `getColumnFields`. -/
def Schema.getColumnFieldsSt (s : Schema) (includePrimary useLabels : Bool) :
    List String × Schema :=
  (s.getColumnFields includePrimary useLabels, s)

/-- State-passing form of `getPrimaryKey`. -/
def Schema.getPrimaryKeySt (s : Schema) (useAlias : Bool) : Option String × Schema :=
  (s.getPrimaryKey useAlias, s)

/-- State-passing form of `aliasToColumnName`. -/
def Schema.aliasToColumnNameSt (s : Schema) (aliasColumn : String) : String × Schema :=
  (s.aliasToColumnName aliasColumn, s)

/-- State-passing form of `sqlCreateTable`. -/
def Schema.sqlCreateTableSt (s : Schema) : String × Schema := (s.sqlCreateTable, s)

/-- State-passing form of `sqlCreateEnumConstraints`. -/
def Schema.sqlCreateEnumConstraintsSt (s : Schema) : List String × Schema :=
  (s.sqlCreateEnumConstraints, s)

/-- State-passing form of `sqlCreateTableConstraints`. -/
def Schema.sqlCreateTableConstraintsSt (s : Schema) : List String × Schema :=
  (s.sqlCreateTableConstraints, s)

/-- State-passing form of `sqlTableDrop`. -/
def Schema.sqlTableDropSt (s : Schema) : String × Schema := (s.sqlTableDrop, s)

/-- State-passing form of `sqlSelect`. -/
def Schema.sqlSelectSt (s : Schema) (useLabels : Bool) (filter : Option FilterArg) :
    String × Schema :=
  (s.sqlSelect useLabels filter, s)

/-- State-passing form of `sqlInsert`. -/
def Schema.sqlInsertSt (s : Schema) (data : List String) : String × Schema :=
  (s.sqlInsert data, s)

/-- State-passing form of `sqlUpdate`. -/
def Schema.sqlUpdateSt (s : Schema) (data : List String) : String × Schema :=
  (s.sqlUpdate data, s)

/-- State-passing form of `sqlDelete`. -/
def Schema.sqlDeleteSt (s : Schema) (filter : Option FilterArg) : String × Schema :=
  (s.sqlDelete filter, s)

/-- The columns kept by a projection, as the spec words it: all of them
when `includePrimary` is true, otherwise exactly those not marked
primary key. -/
def keptColumns (cols : List Column) (includePrimary : Bool) : List Column :=
  if includePrimary then cols else cols.filter (fun col => !col.primaryKey)

/-- One column definition of `sqlCreateTable` as the spec words it:
`<name> <sqlType or "text">` followed by independent optional segments
in the fixed order PRIMARY KEY, NULL, GENERATED ALWAYS AS IDENTITY,
DEFAULT. -/
def columnDefSpec (col : Column) : String :=
  col.name ++ " " ++
    (match col.sqlType with
      | some t => if t = "" then "text" else t
      | none => "text") ++
  (if col.primaryKey then " PRIMARY KEY" else "") ++
  (if col.nullable then " NULL" else "") ++
  (if col.autoIncrement then " GENERATED ALWAYS AS IDENTITY" else "") ++
  (match col.defaultValue with
    | none => ""
    | some (.str v) => " DEFAULT '" ++ sqlQuote v ++ "'"
    | some v => " DEFAULT " ++ v.render)

/-- Does `pat` occur as a contiguous run of `l`? -/
def listHasSub (pat : List Char) : List Char → Bool
  | [] => pat.isEmpty
  | c :: rest => pat.isPrefixOf (c :: rest) || listHasSub pat rest

/-- Substring test for strings. -/
def strHasSub (s pat : String) : Bool := listHasSub pat.data s.data

/-- The descriptor of the spec examples: table `MyTable`, alias `mt`,
columns `id` (primary key) and `name`. -/
def mySchema : Schema := Schema.new "MyTable" (some "mt")
  [pkColumn "id" (some "uuid"), plainColumn "name" (some "text")] []

/-- The descriptor of the repository test: `mySchema` plus a `status`
column with enumerated values `0 ↦ Off`, `1 ↦ On`. -/
def enumSchema : Schema := Schema.new "MyTable" (some "mt")
  [pkColumn "id" (some "uuid"), plainColumn "name" (some "text"),
   ⟨"status", some "smallint", false, false, false, false, none,
     some [⟨.num 0, some "Off"⟩, ⟨.num 1, some "On"⟩]⟩] []

/-- A descriptor with a string default value containing a single quote. -/
def obSchema : Schema := Schema.new "MyTable" (some "mt")
  [⟨"n", none, false, false, false, false, some (.str "O'Brien"), none⟩] []

end PgUtil

namespace PgUtil

theorem insert_foldl (a : String) (data : List String) (cols : List Column)
    (acc1 acc2 : List String) :
    cols.foldl
      (fun (acc : List String × List String) col =>
        let aliasKey := (a ++ "_") ++ col.name
        if data.contains aliasKey then
          (acc.1 ++ [(a ++ ".") ++ col.name], acc.2 ++ ["$" ++ aliasKey])
        else acc)
      (acc1, acc2)
    = (acc1 ++ (cols.filter (fun col => data.contains ((a ++ "_") ++ col.name))).map
        (fun col => (a ++ ".") ++ col.name),
       acc2 ++ (cols.filter (fun col => data.contains ((a ++ "_") ++ col.name))).map
        (fun col => "$" ++ ((a ++ "_") ++ col.name))) := by
  induction cols generalizing acc1 acc2 with
  | nil => simp
  | cons c rest ih =>
    simp only [List.foldl_cons, List.filter_cons]
    by_cases h : data.contains ((a ++ "_") ++ c.name) = true
    · simp only [h, if_true, ih, List.map_cons, List.append_assoc, List.singleton_append]
    · simp only [Bool.not_eq_true] at h
      simp only [h, if_false, ih, Bool.false_eq_true]

theorem sqlInsert_eq (s : Schema) (data : List String) :
    s.sqlInsert data =
      (if (s.columns.filter (fun col =>
            data.contains ((s.getAlias ++ "_") ++ col.name))) = [] then ""
       else
        "INSERT INTO " ++ s.getTableName true ++ " AS " ++ s.getAlias ++ " (" ++
          jsJoin ", " ((s.columns.filter (fun col =>
            data.contains ((s.getAlias ++ "_") ++ col.name))).map
              (fun col => (s.getAlias ++ ".") ++ col.name)) ++
          ") VALUES (" ++
          jsJoin ", " ((s.columns.filter (fun col =>
            data.contains ((s.getAlias ++ "_") ++ col.name))).map
              (fun col => "$" ++ ((s.getAlias ++ "_") ++ col.name))) ++ ")") := by
  simp only [Schema.sqlInsert, insert_foldl, List.nil_append, List.length_eq_zero,
    List.map_eq_nil_iff]

theorem append_right_ne_empty (x y : String) (h : y.length ≠ 0) : x ++ y ≠ "" := by
  intro he
  have h2 : (x ++ y).length = 0 := by rw [he]; rfl
  rw [String.length_append] at h2
  omega

/-- C1: `sqlInsert(data)` returns the empty string exactly when no
column's alias-key `<alias>_<name>` is a present key of `data`;
otherwise it is the INSERT statement whose column list and placeholder
list run, in declaration order and in matching positions, over exactly
the columns whose alias-key is present. -/
theorem sqlInsert_correct (s : Schema) (data : List String) :
    (s.sqlInsert data = "" ↔
      ∀ col ∈ s.columns, data.contains ((s.getAlias ++ "_") ++ col.name) = false) ∧
    ((¬ ∀ col ∈ s.columns, data.contains ((s.getAlias ++ "_") ++ col.name) = false) →
      s.sqlInsert data =
        "INSERT INTO " ++ s.getTableName true ++ " AS " ++ s.getAlias ++ " (" ++
          jsJoin ", " ((s.columns.filter (fun col =>
            data.contains ((s.getAlias ++ "_") ++ col.name))).map
              (fun col => (s.getAlias ++ ".") ++ col.name)) ++
          ") VALUES (" ++
          jsJoin ", " ((s.columns.filter (fun col =>
            data.contains ((s.getAlias ++ "_") ++ col.name))).map
              (fun col => "$" ++ ((s.getAlias ++ "_") ++ col.name))) ++ ")") := by
  have hfil : (s.columns.filter (fun col =>
      data.contains ((s.getAlias ++ "_") ++ col.name)) = []) ↔
      ∀ col ∈ s.columns, data.contains ((s.getAlias ++ "_") ++ col.name) = false := by
    rw [List.filter_eq_nil_iff]
    constructor
    · intro h col hc
      exact Bool.not_eq_true _ |>.mp (h col hc)
    · intro h col hc
      rw [h col hc]
      exact Bool.false_ne_true
  constructor
  · rw [sqlInsert_eq]
    by_cases h : s.columns.filter (fun col =>
        data.contains ((s.getAlias ++ "_") ++ col.name)) = []
    · rw [if_pos h]
      exact iff_of_true rfl (hfil.mp h)
    · rw [if_neg h]
      constructor
      · intro he
        exact absurd he (append_right_ne_empty _ ")" (by decide))
      · intro hall
        exact absurd (hfil.mpr hall) h
  · intro hnot
    rw [sqlInsert_eq, if_neg (fun hh => hnot (hfil.mp hh))]

/-- Witness for `sqlInsert_correct` on the spec's example descriptor. -/
theorem sqlInsert_correct_witness :
    mySchema.sqlInsert ["mt_name"] =
      "INSERT INTO mytable AS mt (mt.name) VALUES ($mt_name)" ∧
    mySchema.sqlInsert [] = "" := by
  constructor
  · rw [(sqlInsert_correct mySchema ["mt_name"]).2 (by decide)]
    rfl
  · exact (sqlInsert_correct mySchema []).1.mpr (by decide)

theorem update_foldl (a : String) (data : List String) (cols : List Column)
    (acc0 : List String) :
    cols.foldl
      (fun (acc : List String) col =>
        if data.contains col.name && !col.primaryKey then
          acc ++ [(a ++ ".") ++ col.name ++ " = $" ++ (a ++ "_") ++ col.name]
        else acc)
      acc0
    = acc0 ++ (cols.filter (fun col => data.contains col.name && !col.primaryKey)).map
        (fun col => (a ++ ".") ++ col.name ++ " = $" ++ (a ++ "_") ++ col.name) := by
  induction cols generalizing acc0 with
  | nil => simp
  | cons c rest ih =>
    simp only [List.foldl_cons, List.filter_cons]
    by_cases h : (data.contains c.name && !c.primaryKey) = true
    · simp only [h, if_true, ih, List.map_cons, List.append_assoc, List.singleton_append]
    · simp only [Bool.not_eq_true] at h
      simp only [h, if_false, ih, Bool.false_eq_true]

/-- C2: `sqlUpdate(data)` sets, in declaration order, exactly the
non-primary-key columns whose bare name is a present key of `data`, and
always closes with a WHERE clause on the first primary-key column,
whether or not any SET assignment was produced. -/
theorem sqlUpdate_correct (s : Schema) (data : List String) (pkCol : Column)
    (hpk : s.columns.find? (fun col => col.primaryKey) = some pkCol) :
    s.sqlUpdate data =
      "UPDATE " ++ s.getTableName true ++ " AS " ++ s.getAlias ++ " SET " ++
        jsJoin ", " ((s.columns.filter (fun col =>
          data.contains col.name && !col.primaryKey)).map
            (fun col => (s.getAlias ++ ".") ++ col.name ++ " = $" ++
              (s.getAlias ++ "_") ++ col.name)) ++
        " WHERE " ++ ((s.getAlias ++ ".") ++ pkCol.name) ++ " = " ++
        ("$" ++ ((s.getAlias ++ "_") ++ pkCol.name)) := by
  simp only [Schema.sqlUpdate, update_foldl, List.nil_append, Schema.getPrimaryKey, hpk,
    jsNullable, if_true, if_false, Bool.false_eq_true, ite_false, ite_true]

/-- Witness for `sqlUpdate_correct`: the spec's example, including that
the WHERE clause survives an empty SET list. -/
theorem sqlUpdate_correct_witness :
    mySchema.sqlUpdate ["name"] =
      "UPDATE mytable AS mt SET mt.name = $mt_name WHERE mt.id = $mt_id" ∧
    mySchema.sqlUpdate [] = "UPDATE mytable AS mt SET  WHERE mt.id = $mt_id" := by
  constructor
  · rw [sqlUpdate_correct mySchema ["name"] (pkColumn "id" (some "uuid")) (by decide)]
    rfl
  · rw [sqlUpdate_correct mySchema [] (pkColumn "id" (some "uuid")) (by decide)]
    rfl

theorem filter_keep_eq (cols : List Column) (includePrimary : Bool) :
    cols.filter (fun col => includePrimary || !col.primaryKey) =
      keptColumns cols includePrimary := by
  cases includePrimary with
  | false => simp only [keptColumns, Bool.false_or, if_false, Bool.false_eq_true]
  | true => simp only [keptColumns, Bool.true_or, if_true, List.filter_true]

/-- C4: the three projections each emit one entry per kept column, in
declaration order, keeping all columns when `includePrimary` is true and
exactly the non-primary-key columns otherwise; entries have the form
`<alias>_<name>`, `<alias>.<name>`, and — for non-enum columns or when
`useLabels` is false — `<alias>.<name> AS "<alias>_<name>"`. -/
theorem columnProjections_correct (s : Schema) (includePrimary useLabels : Bool) :
    s.getColumnAliases includePrimary =
      (keptColumns s.columns includePrimary).map
        (fun col => (s.getAlias ++ "_") ++ col.name) ∧
    s.getColumnNames includePrimary =
      (keptColumns s.columns includePrimary).map
        (fun col => (s.getAlias ++ ".") ++ col.name) ∧
    s.getColumnFields includePrimary useLabels =
      (keptColumns s.columns includePrimary).map (s.fieldExpr useLabels) ∧
    (∀ col : Column, useLabels = false ∨ col.enumValues = none →
      s.fieldExpr useLabels col =
        (s.getAlias ++ ".") ++ col.name ++ " AS \"" ++ (s.getAlias ++ "_") ++
          col.name ++ "\"") := by
  refine ⟨?_, ?_, ?_, ?_⟩
  · simp only [Schema.getColumnAliases, filter_keep_eq]
  · simp only [Schema.getColumnNames, filter_keep_eq]
  · simp only [Schema.getColumnFields, filter_keep_eq]
  · intro col h
    unfold Schema.fieldExpr
    rcases h with h | h
    · rw [h]
      simp only [Bool.false_and, if_false, Bool.false_eq_true]
    · rw [h]
      simp only [Option.isSome_none, Bool.and_false, if_false, Bool.false_eq_true]

/-- Witness for `columnProjections_correct` on the example descriptor. -/
theorem columnProjections_correct_witness :
    mySchema.getColumnAliases false = ["mt_name"] ∧
    mySchema.fieldExpr false (plainColumn "name" (some "text")) =
      "mt.name AS \"mt_name\"" := by
  constructor
  · rw [(columnProjections_correct mySchema false false).1]
    rfl
  · rw [(columnProjections_correct mySchema false false).2.2.2
      (plainColumn "name" (some "text")) (Or.inl rfl)]
    rfl

/-- C5 counterexample: a column with `primaryKey = false` is present —
not absent — in the outputs of all three projections when
`includePrimary = false`. -/
theorem nonPrimary_present_cex :
    (plainColumn "name" (some "text")) ∈ mySchema.columns ∧
    (plainColumn "name" (some "text")).primaryKey = false ∧
    mySchema.getColumnAliases false = ["mt_name"] ∧
    mySchema.getColumnNames false = ["mt.name"] ∧
    mySchema.getColumnFields false false = ["mt.name AS \"mt_name\""] := by
  refine ⟨by decide, rfl, rfl, rfl, rfl⟩

/-- C5 (amended): with `includePrimary = false` the projections are the
per-column renderings of exactly the columns with `primaryKey = false`,
so every column with `primaryKey = true` contributes no entry. -/
theorem nonPrimary_projection (s : Schema) :
    s.getColumnAliases false =
      (s.columns.filter (fun col => !col.primaryKey)).map
        (fun col => (s.getAlias ++ "_") ++ col.name) ∧
    s.getColumnNames false =
      (s.columns.filter (fun col => !col.primaryKey)).map
        (fun col => (s.getAlias ++ ".") ++ col.name) ∧
    (∀ useLabels : Bool, s.getColumnFields false useLabels =
      (s.columns.filter (fun col => !col.primaryKey)).map (s.fieldExpr useLabels)) := by
  refine ⟨?_, ?_, fun u => ?_⟩
  · simp only [Schema.getColumnAliases, Bool.false_or]
  · simp only [Schema.getColumnNames, Bool.false_or]
  · simp only [Schema.getColumnFields, Bool.false_or]

theorem aliasToColumnName_strip (s : Schema) (rest : String) :
    s.aliasToColumnName ((s.getAlias ++ "_") ++ rest) = rest := by
  unfold Schema.aliasToColumnName
  have hp : (s.getAlias ++ "_").data.isPrefixOf ((s.getAlias ++ "_") ++ rest).data = true := by
    rw [String.data_append]
    exact List.isPrefixOf_iff_prefix.mpr (List.prefix_append _ _)
  rw [if_pos hp]
  have hd : ((s.getAlias ++ "_") ++ rest).data.drop (s.getAlias ++ "_").length =
      rest.data := by
    rw [String.data_append]
    exact List.drop_left _ _
  rw [hd]

theorem getColumnAliases_true_eq (s : Schema) :
    s.getColumnAliases true =
      s.columns.map (fun col => (s.getAlias ++ "_") ++ col.name) := by
  simp only [Schema.getColumnAliases, Bool.true_or, List.filter_true]

/-- C8: `aliasToColumnName` recovers the i-th column's bare name from
the i-th entry of `getColumnAliases(true)`; it strips the `<alias>_`
prefix when present and returns its input unchanged otherwise. -/
theorem aliasToColumnName_correct (s : Schema) :
    ((s.getColumnAliases true).length = s.columns.length) ∧
    (∀ (i : Nat) (h1 : i < (s.getColumnAliases true).length)
        (h2 : i < s.columns.length),
      s.aliasToColumnName ((s.getColumnAliases true).get ⟨i, h1⟩) =
        (s.columns.get ⟨i, h2⟩).name) ∧
    (∀ rest : String, s.aliasToColumnName ((s.getAlias ++ "_") ++ rest) = rest) ∧
    (∀ ac : String, (s.getAlias ++ "_").data.isPrefixOf ac.data = false →
      s.aliasToColumnName ac = ac) := by
  refine ⟨?_, ?_, aliasToColumnName_strip s, ?_⟩
  · rw [getColumnAliases_true_eq, List.length_map]
  · intro i h1 h2
    have he : (s.getColumnAliases true).get ⟨i, h1⟩ =
        (s.getAlias ++ "_") ++ (s.columns.get ⟨i, h2⟩).name := by
      simp only [List.get_eq_getElem, getColumnAliases_true_eq s, List.getElem_map]
    rw [he, aliasToColumnName_strip]
  · intro ac h
    unfold Schema.aliasToColumnName
    rw [if_neg (by rw [h]; exact Bool.false_ne_true)]

/-- Witness for `aliasToColumnName_correct` on the example descriptor. -/
theorem aliasToColumnName_correct_witness :
    mySchema.aliasToColumnName ((mySchema.getColumnAliases true).get ⟨1, by decide⟩) =
      "name" ∧
    mySchema.aliasToColumnName "other" = "other" := by
  constructor
  · rw [(aliasToColumnName_correct mySchema).2.1 1 (by decide) (by decide)]
    rfl
  · exact (aliasToColumnName_correct mySchema).2.2.2 "other" (by decide)

/-- C3: the shared where-clause is empty when no filter is supplied,
joins conditions with AND after WHERE otherwise, forces IS NULL /
IS NOT NULL for null values (IS NOT exactly on a case-insensitive
"IS NOT" operator), quotes strings with doubled single quotes, renders
numbers as-is and booleans as TRUE/FALSE; `sqlSelect` and `sqlDelete`
append exactly this clause. -/
theorem whereClause_correct (s : Schema) :
    (s.whereClause none = "") ∧
    (∀ fs : List Filter, s.whereClause (some (.many fs)) =
      " WHERE " ++ jsJoin " AND " (fs.map s.renderFilter)) ∧
    (∀ f : Filter, s.whereClause (some (.one f)) = " WHERE " ++ s.renderFilter f) ∧
    (∀ (useLabels : Bool) (fopt : Option FilterArg),
      s.sqlSelect useLabels fopt = s.sqlSelect useLabels none ++ s.whereClause fopt) ∧
    (∀ fopt : Option FilterArg,
      s.sqlDelete fopt = s.sqlDelete none ++ s.whereClause fopt) ∧
    (∀ f : Filter, f.value = none → jsToUpper f.op = "IS NOT" →
      s.renderFilter f = s.filterColRef f ++ " IS NOT NULL") ∧
    (∀ f : Filter, f.value = none → jsToUpper f.op ≠ "IS NOT" →
      s.renderFilter f = s.filterColRef f ++ " IS NULL") ∧
    (∀ (f : Filter) (x : String), f.value = some (.str x) →
      s.renderFilter f =
        s.filterColRef f ++ " " ++ f.op ++ " " ++ ("'" ++ sqlQuote x ++ "'")) ∧
    (∀ (f : Filter) (n : Int), f.value = some (.num n) →
      s.renderFilter f = s.filterColRef f ++ " " ++ f.op ++ " " ++ toString n) ∧
    (∀ (f : Filter) (b : Bool), f.value = some (.bool b) →
      s.renderFilter f =
        s.filterColRef f ++ " " ++ f.op ++ " " ++ (if b then "TRUE" else "FALSE")) ∧
    (mySchema.sqlDelete (some (.one ⟨.aliased "mt_id", none, none⟩)) =
      "DELETE FROM mytable AS mt WHERE mt.id IS NULL") := by
  refine ⟨rfl, fun fs => rfl, fun f => rfl, ?_, ?_, ?_, ?_, ?_, ?_, ?_, rfl⟩
  · intro u fopt
    simp only [Schema.sqlSelect, Schema.whereClause, String.append_empty]
  · intro fopt
    simp only [Schema.sqlDelete, Schema.whereClause, String.append_empty]
  · intro f hv hop
    simp only [Schema.renderFilter, hv]
    rw [if_pos hop, String.append_assoc, String.append_assoc]
    congr 1
  · intro f hv hop
    simp only [Schema.renderFilter, hv]
    rw [if_neg hop, String.append_assoc, String.append_assoc]
    congr 1
  · intro f x hv
    simp only [Schema.renderFilter, hv]
  · intro f n hv
    simp only [Schema.renderFilter, hv]
  · intro f b hv
    simp only [Schema.renderFilter, hv]

/-- Witness for `whereClause_correct`: each rendering case at a
concrete filter on the example descriptor. -/
theorem whereClause_correct_witness :
    mySchema.renderFilter ⟨.column "id", some "is not", none⟩ = "mt.id IS NOT NULL" ∧
    mySchema.renderFilter ⟨.column "id", some "=", none⟩ = "mt.id IS NULL" ∧
    mySchema.renderFilter ⟨.column "name", none, some (.str "a'b")⟩ =
      "mt.name = 'a''b'" ∧
    mySchema.renderFilter ⟨.column "id", some ">", some (.num 5)⟩ = "mt.id > 5" ∧
    mySchema.renderFilter ⟨.column "ok", none, some (.bool true)⟩ = "mt.ok = TRUE" := by
  refine ⟨?_, ?_, ?_, ?_, ?_⟩
  · rw [(whereClause_correct mySchema).2.2.2.2.2.1 ⟨.column "id", some "is not", none⟩
      rfl (by decide)]
    rfl
  · rw [(whereClause_correct mySchema).2.2.2.2.2.2.1 ⟨.column "id", some "=", none⟩
      rfl (by decide)]
    rfl
  · rw [(whereClause_correct mySchema).2.2.2.2.2.2.2.1 ⟨.column "name", none,
      some (.str "a'b")⟩ "a'b" rfl]
    rfl
  · rw [(whereClause_correct mySchema).2.2.2.2.2.2.2.2.1 ⟨.column "id", some ">",
      some (.num 5)⟩ 5 rfl]
    rfl
  · rw [(whereClause_correct mySchema).2.2.2.2.2.2.2.2.2.1 ⟨.column "ok", none,
      some (.bool true)⟩ true rfl]
    rfl

set_option maxRecDepth 4096 in
/-- C6 counterexample: the exact substring the claim names — with
` END AS "mt_status_label"` directly after the CASE — does not occur in
the generated select field: the source parenthesizes the CASE
expression, producing `... END) AS "mt_status_label"`. -/
theorem enumCase_claimed_substring_cex :
    strHasSub (enumSchema.sqlSelect true none)
      ("CASE WHEN mt.status = 0 THEN 'Off' WHEN mt.status = 1 THEN 'On' ELSE " ++
       "'Value \"' || mt.status || '\"' END AS \"mt_status_label\"") = false := by
  rfl

set_option maxRecDepth 4096 in
/-- C6 (amended): the generated field is the parenthesized CASE
expression `(CASE ... END)` aliased as `"<alias>_<name>_label"`; the
spec's example therefore contains `... END) AS "mt_status_label"`, and
in general a column with `enumValues` and `useLabels = true` renders as
its CASE expression followed by the label alias. -/
theorem enumCase_field_correct :
    strHasSub (enumSchema.sqlSelect true none)
      ("(CASE WHEN mt.status = 0 THEN 'Off' WHEN mt.status = 1 THEN 'On' ELSE " ++
       "'Value \"' || mt.status || '\"' END) AS \"mt_status_label\"") = true ∧
    (∀ (s : Schema) (col : Column) (evs : List EnumValue),
      col.enumValues = some evs →
      s.fieldExpr true col =
        s.enumCase col evs ++ " AS \"" ++ (s.getAlias ++ "_") ++ col.name ++
          "_label\"") := by
  constructor
  · rfl
  · intro s col evs hev
    simp only [Schema.fieldExpr, Schema.enumExpression, hev, Option.isSome_some,
      Bool.and_self, if_true, jsNullable, Bool.true_and, ite_true]

/-- Witness for `enumCase_field_correct` at the test descriptor's
`status` column. -/
theorem enumCase_field_correct_witness :
    enumSchema.fieldExpr true
      ⟨"status", some "smallint", false, false, false, false, none,
        some [⟨.num 0, some "Off"⟩, ⟨.num 1, some "On"⟩]⟩ =
      "(CASE WHEN mt.status = 0 THEN 'Off' WHEN mt.status = 1 THEN 'On' ELSE " ++
        "'Value \"' || mt.status || '\"' END) AS \"mt_status_label\"" := by
  rw [enumCase_field_correct.2 enumSchema
    ⟨"status", some "smallint", false, false, false, false, none,
      some [⟨.num 0, some "Off"⟩, ⟨.num 1, some "On"⟩]⟩
    [⟨.num 0, some "Off"⟩, ⟨.num 1, some "On"⟩] rfl]
  rfl

theorem columnDef_eq_spec (col : Column) : columnDef col = columnDefSpec col := by
  rcases col with ⟨name, st, pk, nu, ai, fk, dv, ev⟩
  unfold columnDef columnDefSpec
  cases pk <;> cases nu <;> cases ai <;>
    rcases dv with _ | ⟨v | n | b⟩ <;>
    simp only [if_true, if_false, ite_true, ite_false, Bool.false_eq_true,
      String.append_empty, String.append_assoc]

/-- C7: `sqlCreateTable()` renders `CREATE TABLE IF NOT EXISTS` over the
lowercased table name with one definition per column — name, type
(default `text`), then PRIMARY KEY / NULL / GENERATED ALWAYS AS
IDENTITY / DEFAULT segments in that fixed order, string defaults
single-quoted with doubled quotes (`O'Brien` becomes `'O''Brien'`). -/
theorem sqlCreateTable_correct (s : Schema) :
    s.sqlCreateTable =
      "CREATE TABLE IF NOT EXISTS " ++ jsToLower s.tableName ++ " (" ++
        jsJoin ", " (s.columns.map columnDefSpec) ++ ");" ∧
    obSchema.sqlCreateTable =
      "CREATE TABLE IF NOT EXISTS mytable (n text DEFAULT 'O''Brien');" := by
  constructor
  · simp only [Schema.sqlCreateTable, Schema.getTableName, if_true, ite_true,
      funext columnDef_eq_spec]
  · rfl

/-- C9: every generation and projection method, in state-passing form,
returns the descriptor state unchanged, and an immediate second call
with the same arguments returns the same result. -/
theorem methods_pure (s : Schema) (useSql includePrimary useLabels useAlias : Bool)
    (ac : String) (data : List String) (fopt : Option FilterArg) :
    ((s.getAliasSt).2 = s ∧ ((s.getAliasSt).2.getAliasSt).1 = (s.getAliasSt).1) ∧
    ((s.getTableNameSt useSql).2 = s ∧
      (((s.getTableNameSt useSql).2.getTableNameSt useSql)).1 =
        (s.getTableNameSt useSql).1) ∧
    ((s.getColumnAliasesSt includePrimary).2 = s ∧
      ((s.getColumnAliasesSt includePrimary).2.getColumnAliasesSt includePrimary).1 =
        (s.getColumnAliasesSt includePrimary).1) ∧
    ((s.getColumnNamesSt includePrimary).2 = s ∧
      ((s.getColumnNamesSt includePrimary).2.getColumnNamesSt includePrimary).1 =
        (s.getColumnNamesSt includePrimary).1) ∧
    ((s.getColumnFieldsSt includePrimary useLabels).2 = s ∧
      ((s.getColumnFieldsSt includePrimary useLabels).2.getColumnFieldsSt
          includePrimary useLabels).1 =
        (s.getColumnFieldsSt includePrimary useLabels).1) ∧
    ((s.getPrimaryKeySt useAlias).2 = s ∧
      ((s.getPrimaryKeySt useAlias).2.getPrimaryKeySt useAlias).1 =
        (s.getPrimaryKeySt useAlias).1) ∧
    ((s.aliasToColumnNameSt ac).2 = s ∧
      ((s.aliasToColumnNameSt ac).2.aliasToColumnNameSt ac).1 =
        (s.aliasToColumnNameSt ac).1) ∧
    ((s.sqlCreateTableSt).2 = s ∧
      ((s.sqlCreateTableSt).2.sqlCreateTableSt).1 = (s.sqlCreateTableSt).1) ∧
    ((s.sqlCreateEnumConstraintsSt).2 = s ∧
      ((s.sqlCreateEnumConstraintsSt).2.sqlCreateEnumConstraintsSt).1 =
        (s.sqlCreateEnumConstraintsSt).1) ∧
    ((s.sqlCreateTableConstraintsSt).2 = s ∧
      ((s.sqlCreateTableConstraintsSt).2.sqlCreateTableConstraintsSt).1 =
        (s.sqlCreateTableConstraintsSt).1) ∧
    ((s.sqlTableDropSt).2 = s ∧
      ((s.sqlTableDropSt).2.sqlTableDropSt).1 = (s.sqlTableDropSt).1) ∧
    ((s.sqlSelectSt useLabels fopt).2 = s ∧
      ((s.sqlSelectSt useLabels fopt).2.sqlSelectSt useLabels fopt).1 =
        (s.sqlSelectSt useLabels fopt).1) ∧
    ((s.sqlInsertSt data).2 = s ∧
      ((s.sqlInsertSt data).2.sqlInsertSt data).1 = (s.sqlInsertSt data).1) ∧
    ((s.sqlUpdateSt data).2 = s ∧
      ((s.sqlUpdateSt data).2.sqlUpdateSt data).1 = (s.sqlUpdateSt data).1) ∧
    ((s.sqlDeleteSt fopt).2 = s ∧
      ((s.sqlDeleteSt fopt).2.sqlDeleteSt fopt).1 = (s.sqlDeleteSt fopt).1) := by
  exact ⟨⟨rfl, rfl⟩, ⟨rfl, rfl⟩, ⟨rfl, rfl⟩, ⟨rfl, rfl⟩, ⟨rfl, rfl⟩, ⟨rfl, rfl⟩,
    ⟨rfl, rfl⟩, ⟨rfl, rfl⟩, ⟨rfl, rfl⟩, ⟨rfl, rfl⟩, ⟨rfl, rfl⟩, ⟨rfl, rfl⟩,
    ⟨rfl, rfl⟩, ⟨rfl, rfl⟩, ⟨rfl, rfl⟩⟩

/-- C10: an empty filter array is not treated like an omitted filter:
it appends the dangling suffix ` WHERE ` with no condition after it,
while an omitted filter omits the WHERE keyword entirely. -/
theorem emptyFilterArray_dangling (s : Schema) (useLabels : Bool) :
    s.whereClause (some (.many [])) = " WHERE " ∧
    s.whereClause none = "" ∧
    s.sqlSelect useLabels (some (.many [])) = s.sqlSelect useLabels none ++ " WHERE " ∧
    s.sqlDelete (some (.many [])) = s.sqlDelete none ++ " WHERE " := by
  refine ⟨rfl, rfl, ?_, ?_⟩
  · simp only [Schema.sqlSelect, Schema.whereClause, String.append_empty,
      List.map_nil, jsJoin]
  · simp only [Schema.sqlDelete, Schema.whereClause, String.append_empty,
      List.map_nil, jsJoin]
